import Mathlib

set_option linter.dupNamespace false

/-!
# Verification of the ZeWIF interchange library

A shallow embedding of the `zewif` Rust crate (fixed-width blobs, the
envelope/document codec used by the domain entities, the compact-size
binary parser, and tree positions), together with proofs of the spec's
claims about it.

Machine bytes are modelled as `Fin 256`; byte buffers as `List Byte`.
Fallible Rust functions returning `Result<T, E>` become `Except E T`.
-/

namespace Zewif

instance {ε α : Type} [DecidableEq ε] [DecidableEq α] : DecidableEq (Except ε α) := fun a b =>
  match a, b with
  | .ok x, .ok y => decidable_of_iff (x = y) (by simp)
  | .error x, .error y => decidable_of_iff (x = y) (by simp)
  | .ok _, .error _ => .isFalse (by simp)
  | .error _, .ok _ => .isFalse (by simp)

/-- A machine byte (`u8`). -/
abbrev Byte := Fin 256

/-! ## Fixed-width binary value: `Blob<N>` (src/blob.rs)

`Blob<N>` wraps `[u8; N]`: a byte list whose length is exactly `N`. -/

/-- Rust `Blob<const N: usize>([u8; N])` from src/blob.rs: an immutable byte
sequence of length exactly `N`. -/
def Blob (N : Nat) := { data : List Byte // data.length = N }

instance (N : Nat) : DecidableEq (Blob N) := fun a b =>
  decidable_of_iff (a.val = b.val) Subtype.ext_iff.symm

/-- The raw bytes of a blob (`as_slice` / `as_bytes`). -/
def Blob.data {N : Nat} (b : Blob N) : List Byte := b.val

/-- Rust `std::array::TryFromSliceError`: the error returned by
`<[u8; N]>::try_from(&[u8])`.  In Rust this is an opaque unit-like
struct carrying no length information; we model it as a structure with
no fields. -/
structure TryFromSliceError where
deriving DecidableEq

/-- Errors from the `hex` crate's `hex::decode` (`hex::FromHexError`).
The exact payloads (offending character, index) are irrelevant to the
claims; what matters is which failure class occurred. -/
inductive FromHexError where
  | invalidHexCharacter
  | oddLength
deriving DecidableEq

/-- Rust `HexParseError` from src/blob.rs lines 13-17: either a length
mismatch carrying `expected` and `actual` counts, or a wrapped hex
decoding failure. -/
inductive HexParseError where
  | SliceInvalid (expected : Nat) (actual : Nat)
  | HexInvalid (e : FromHexError)
deriving DecidableEq

/-- Rust `Blob::from_slice` (src/blob.rs lines 159-161):
`Ok(Self(<[u8; N]>::try_from(data)?))` — succeeds exactly when the
slice has length `N`, otherwise returns std's `TryFromSliceError`. -/
def Blob.from_slice (N : Nat) (data : List Byte) :
    Except TryFromSliceError (Blob N) :=
  if h : data.length = N then .ok ⟨data, h⟩ else .error ⟨⟩

/-- Rust `Blob::from_vec` (src/blob.rs lines 176-178): delegates to
`from_slice`. -/
def Blob.from_vec (N : Nat) (data : List Byte) :
    Except TryFromSliceError (Blob N) :=
  Blob.from_slice N data

/-- Rust `From<Vec<u8>> for Blob<N>` (src/blob.rs lines 303-307):
`Self::from_vec(data).unwrap()`.  The `.unwrap()` panics on a length
mismatch; a panic is modelled as `none`. -/
def Blob.fromVecInfallible (N : Nat) (data : List Byte) : Option (Blob N) :=
  (Blob.from_vec N data).toOption

/-- Rust `From<&[u8]> for Blob<N>` (src/blob.rs lines 309-313):
`Self::from_vec(data.to_vec()).unwrap()`, same panic behaviour. -/
def Blob.fromSliceInfallible (N : Nat) (data : List Byte) : Option (Blob N) :=
  (Blob.from_vec N data).toOption

/-! ### Hexadecimal encoding and decoding

Models the `hex` crate as used by src/blob.rs: `hex::encode` for
`Display`/`Debug`, `hex::decode` for `from_hex`. -/

/-- The lowercase hex digit for a value below 16, computed from the
code points of the digit and letter ranges. -/
def hexDigitChar (n : Fin 16) : Char :=
  if n.val < 10 then Char.ofNat (48 + n.val) else Char.ofNat (87 + n.val)

/-- The value of a hex digit character (none for non-hex characters),
read off the code-point ranges 0-9, a-f and A-F; the `hex` crate accepts
both cases. -/
def hexCharVal (c : Char) : Option (Fin 16) :=
  if h : 48 ≤ c.toNat ∧ c.toNat ≤ 57 then some ⟨c.toNat - 48, by omega⟩
  else if h : 97 ≤ c.toNat ∧ c.toNat ≤ 102 then some ⟨c.toNat - 87, by omega⟩
  else if h : 65 ≤ c.toNat ∧ c.toNat ≤ 70 then some ⟨c.toNat - 55, by omega⟩
  else none

/-- Combine a high and a low hex digit into a byte. -/
def byteOfDigits (hi lo : Fin 16) : Byte :=
  ⟨hi.val * 16 + lo.val, by omega⟩

/-- The high hex digit of a byte. -/
def hiDigit (b : Byte) : Fin 16 := ⟨b.val / 16, by omega⟩

/-- The low hex digit of a byte. -/
def loDigit (b : Byte) : Fin 16 := ⟨b.val % 16, by omega⟩

/-- Rust `hex::encode` on a byte buffer: two lowercase hex digits per byte. -/
def hexEncodeBytes : List Byte → List Char
  | [] => []
  | b :: rest => hexDigitChar (hiDigit b) :: hexDigitChar (loDigit b) :: hexEncodeBytes rest

/-- Rust `hex::decode` on a character list: consumes characters two at a
time; fails on an odd-length input or a non-hex character. -/
def hexDecodeChars : List Char → Except FromHexError (List Byte)
  | [] => .ok []
  | [_] => .error .oddLength
  | c₁ :: c₂ :: rest =>
    match hexCharVal c₁, hexCharVal c₂ with
    | some hi, some lo =>
      match hexDecodeChars rest with
      | .ok bs => .ok (byteOfDigits hi lo :: bs)
      | .error e => .error e
    | _, _ => .error .invalidHexCharacter

/-- Rust `impl Display for Blob` (src/blob.rs lines 285-289):
`write!(f, "{}", hex::encode(self.0))` — the canonical lowercase,
unprefixed hexadecimal form. -/
def Blob.display {N : Nat} (b : Blob N) : String :=
  String.mk (hexEncodeBytes b.val)

/-- Rust `Blob::from_hex` (src/blob.rs lines 190-196): hex-decode the string
(wrapping hex failures in `HexInvalid`), then `from_vec`; a length
failure is mapped to `SliceInvalid { expected: N * 2, actual: hex.len() }`. -/
def Blob.from_hex (N : Nat) (hex : String) : Except HexParseError (Blob N) :=
  match hexDecodeChars hex.data with
  | .error e => .error (.HexInvalid e)
  | .ok data =>
    match Blob.from_vec N data with
    | .ok b => .ok b
    | .error _ => .error (.SliceInvalid (N * 2) hex.length)

/-! ## Position (src/position.rs) -/

/-- Rust `Position(u32)` from src/position.rs: a note-commitment-tree index
stored as an unsigned 32-bit integer. -/
structure Position where
  val : Nat
  isLt : val < 2 ^ 32
deriving DecidableEq

/-- Rust `From<usize> for Position` (src/position.rs lines 56-60):
`Self(value as u32)`.  Rust's `as u32` on a `usize` truncates to the
low 32 bits, i.e. reduces modulo `2^32`. -/
def Position.fromUsize (value : Nat) : Position :=
  ⟨value % 2 ^ 32, Nat.mod_lt _ (by norm_num)⟩

/-! ## The envelope document model

The domain entities encode to and decode from Gordian Envelopes
(`bc_envelope`).  The envelope machinery itself is outside this
repository; the model below follows the spec's document model (§3, §4.3):
a document is a subject — a CBOR leaf or a wrapped document — together
with a multiset of (predicate, object) assertions, where each object is
itself a document.  `add_type` adds an `isA` assertion carrying the type
tag; `check_type_envelope` verifies its presence. -/

/-- CBOR leaf values as used by the entities in this repository:
unsigned integers (indices, heights), signed integers (amounts), byte
strings (blobs), text, and arrays of byte strings (`Vec<u256>`). -/
inductive CBORValue where
  | nat (n : Nat)
  | int (i : Int)
  | bytes (bs : List Byte)
  | text (s : String)
  | bytesArray (l : List (List Byte))
deriving DecidableEq

/-- Modelled from the spec: the structural document (`Envelope`).
`leaf v` is `Envelope::new(v)` for a CBOR value `v`; `wrap e` is an
envelope whose subject is the envelope `e`; `assert e p o` is
`e.add_assertion(p, o)`. -/
inductive Envelope where
  | leaf (v : CBORValue)
  | wrap (e : Envelope)
  | assert (e : Envelope) (pred : String) (obj : Envelope)
deriving DecidableEq

namespace Envelope

/-- Modelled from the spec: `Envelope::new` on a CBOR-encodable value. -/
def new (v : CBORValue) : Envelope := .leaf v

/-- Modelled from the spec: `add_assertion(predicate, object)`. -/
def addAssertion (e : Envelope) (pred : String) (obj : Envelope) : Envelope :=
  .assert e pred obj

/-- Modelled from the spec: `add_optional_assertion(predicate, option)`,
which adds nothing when the
value is absent (the spec's optional-field omission rule). -/
def addOptionalAssertion (e : Envelope) (pred : String) :
    Option Envelope → Envelope
  | none => e
  | some obj => e.addAssertion pred obj

/-- Modelled from the spec: `add_type(tag)` — an `isA` assertion whose object is the type tag. -/
def addType (e : Envelope) (tag : String) : Envelope :=
  e.addAssertion "isA" (.leaf (.text tag))

/-- Modelled from the spec: the subject of an envelope — strip all assertions. -/
def subject : Envelope → Envelope
  | .leaf v => .leaf v
  | .wrap e => .wrap e
  | .assert e _ _ => subject e

/-- Modelled from the spec: the assertions of an envelope, in the order they were added. -/
def assertions : Envelope → List (String × Envelope)
  | .leaf _ => []
  | .wrap _ => []
  | .assert e p o => assertions e ++ [(p, o)]

/-- Modelled from the spec: all assertion objects carrying the given predicate, in order. -/
def objectsForPredicate (e : Envelope) (pred : String) : List Envelope :=
  (e.assertions).filterMap (fun a => if a.1 = pred then some a.2 else none)

/-- Modelled from the spec: whether the envelope carries an `isA` assertion for the given tag. -/
def hasType (e : Envelope) (tag : String) : Bool :=
  (e.assertions).any (fun a =>
    a.1 == "isA" &&
      match a.2 with
      | .leaf (.text s) => s == tag
      | _ => false)

end Envelope

/-- Decode errors of the document codec, per spec §7: type-tag mismatch,
a required predicate absent or duplicated, an optional predicate
duplicated, and subject/object coercion failure.  The repository
decorates errors with `.context(...)` breadcrumbs; that diagnostic
decoration is not modelled. -/
inductive DecodeErr where
  | typeMismatch (expected : String)
  | missingAssertion (pred : String)
  | ambiguousAssertion (pred : String)
  | coercion (what : String)
deriving DecidableEq

namespace Envelope

/-- Modelled from the spec: `check_type_envelope(tag)` — fails with a type-mismatch error unless
the envelope carries the tag. -/
def checkType (e : Envelope) (tag : String) : Except DecodeErr Unit :=
  if e.hasType tag then .ok () else .error (.typeMismatch tag)

/-- Modelled from the spec: extract the subject as an unsigned integer
(`extract_subject::<usize>()`). -/
def extractSubjectNat (e : Envelope) : Except DecodeErr Nat :=
  match e.subject with
  | .leaf (.nat n) => .ok n
  | _ => .error (.coercion "subject")

/-- Modelled from the spec: extract the subject as a fixed-width blob
(`extract_subject::<Blob<N>>()`);
the `TryFrom<CBOR> for Blob<N>` impl in src/blob.rs length-checks via
`from_slice`. -/
def extractSubjectBlob (e : Envelope) (N : Nat) : Except DecodeErr (Blob N) :=
  match e.subject with
  | .leaf (.bytes bs) =>
    match Blob.from_slice N bs with
    | .ok b => .ok b
    | .error _ => .error (.coercion "subject")
  | _ => .error (.coercion "subject")

/-- The subject as an envelope (`try_as`-style access for entities whose
subject is itself an entity envelope, e.g. a witness's tree): unwraps a
wrapped subject. -/
def unwrappedSubject (e : Envelope) : Envelope :=
  match e.subject with
  | .wrap inner => inner
  | s => s

/-- For each required predicate, fetch exactly one matching assertion
(spec §4.3: `MissingAssertion` if zero, `AmbiguousAssertion` if more
than one) and decode its object. -/
def extractObjectForPredicate {α : Type} (e : Envelope) (pred : String)
    (dec : Envelope → Except DecodeErr α) : Except DecodeErr α :=
  match e.objectsForPredicate pred with
  | [] => .error (.missingAssertion pred)
  | [o] => dec o
  | _ => .error (.ambiguousAssertion pred)

/-- For each optional predicate, fetch zero or one matching assertions
(spec §4.3: absent decodes to `none`, `AmbiguousAssertion` if more than
one). -/
def extractOptionalObjectForPredicate {α : Type} (e : Envelope) (pred : String)
    (dec : Envelope → Except DecodeErr α) : Except DecodeErr (Option α) :=
  match e.objectsForPredicate pred with
  | [] => .ok none
  | [o] => (dec o).map some
  | _ => .error (.ambiguousAssertion pred)

end Envelope

/-! ### Leaf decoders for assertion objects -/

/-- Decode an assertion object as an unsigned-integer leaf. -/
def decodeNat (o : Envelope) : Except DecodeErr Nat :=
  match o.subject with
  | .leaf (.nat n) => .ok n
  | _ => .error (.coercion "nat")

/-- Decode an assertion object as a signed-integer leaf. -/
def decodeInt (o : Envelope) : Except DecodeErr Int :=
  match o.subject with
  | .leaf (.int i) => .ok i
  | _ => .error (.coercion "int")

/-- Decode an assertion object as a text leaf. -/
def decodeText (o : Envelope) : Except DecodeErr String :=
  match o.subject with
  | .leaf (.text s) => .ok s
  | _ => .error (.coercion "text")

/-- Decode an assertion object as a fixed-width blob leaf
(length-checked, per `TryFrom<CBOR> for Blob<N>` in src/blob.rs). -/
def decodeBlob (N : Nat) (o : Envelope) : Except DecodeErr (Blob N) :=
  match o.subject with
  | .leaf (.bytes bs) =>
    match Blob.from_slice N bs with
    | .ok b => .ok b
    | .error _ => .error (.coercion "blob")
  | _ => .error (.coercion "blob")

/-- Decode an assertion object as a bare CBOR leaf. -/
def decodeCBORLeaf (o : Envelope) : Except DecodeErr CBORValue :=
  match o.subject with
  | .leaf v => .ok v
  | _ => .error (.coercion "cbor")

/-- Decode every element of a list, failing on the first error (the
`collect::<Result<_, _>>()` idiom used throughout the decoders). -/
def mapME {α β : Type} (f : α → Except DecodeErr β) : List α → Except DecodeErr (List β)
  | [] => .ok []
  | x :: xs => do
    let y ← f x
    let ys ← mapME f xs
    return y :: ys

/-! ## Shared entity components not under src/

`u256`, `Amount`, `Attachments`, `ProtocolAddress`, `ZewifWallet`,
`Transaction`, `TxId`, `BlockHeight`, `ARID` and the incremental-tree
types live in parts of the crate (or its dependencies) outside the
provided sources; they are modelled from the spec. -/

/-- Modelled from the spec: `u256`, a 256-bit value stored as 32 bytes (used for keys, rcm,
transaction ids, tree hashes). -/
abbrev U256 := Blob 32

/-- Modelled from the spec: `Amount`, a currency value in zatoshis
(minor units), a 64-bit signed quantity.  Only its round-trip through
the codec matters here, so it is an integer wrapper. -/
structure Amount where
  zat : Int
deriving DecidableEq

/-- Decode an assertion object as an `Amount`. -/
def decodeAmount (o : Envelope) : Except DecodeErr Amount :=
  (decodeInt o).map Amount.mk

/-- Modelled from the spec: vendor-specific attachments (§2
"Vendor-Specific Extensions"), a collection of opaque values each
encoded as one `attachment` assertion. -/
abbrev Attachments := List CBORValue

/-- Modelled from the spec: `Attachments::add_to_envelope` — one `attachment` assertion per entry. -/
def Attachments.addToEnvelope (atts : Attachments) (e : Envelope) : Envelope :=
  atts.foldl (fun acc v => acc.addAssertion "attachment" (.leaf v)) e

/-- Modelled from the spec: `Attachments::try_from_envelope` — collect all `attachment`
assertions. -/
def Attachments.tryFromEnvelope (e : Envelope) : Except DecodeErr Attachments :=
  mapME decodeCBORLeaf (e.objectsForPredicate "attachment")

/-! ## SaplingSentOutput (src/sapling/sapling_sent_output.rs) -/

/-- Rust `SaplingSentOutput` (src/sapling/sapling_sent_output.rs lines
61-94): index, 11-byte diversifier, recipient public key, value in
zatoshis, and random commitment material. -/
structure SaplingSentOutput where
  index : Nat
  diversifier : Blob 11
  receipient_public_key : U256
  value : Amount
  rcm : U256
deriving DecidableEq

/-- Rust `SaplingSentOutput::new` (lines 121-129): all-default fields. -/
def SaplingSentOutput.new : SaplingSentOutput :=
  { index := 0
    diversifier := ⟨List.replicate 11 0, by simp⟩
    receipient_public_key := ⟨List.replicate 32 0, by simp⟩
    value := ⟨0⟩
    rcm := ⟨List.replicate 32 0, by simp⟩ }

/-- Rust `From<SaplingSentOutput> for Envelope` (lines 290-299): subject is
the index, type tag `SaplingSentOutput`, then the four field
assertions. -/
def SaplingSentOutput.toEnvelope (value : SaplingSentOutput) : Envelope :=
  ((((Envelope.new (.nat value.index)).addType "SaplingSentOutput")
    |>.addAssertion "diversifier" (.leaf (.bytes value.diversifier.val)))
    |>.addAssertion "receipient_public_key"
        (.leaf (.bytes value.receipient_public_key.val)))
    |>.addAssertion "value" (.leaf (.int value.value.zat))
    |>.addAssertion "rcm" (.leaf (.bytes value.rcm.val))

/-- Rust `TryFrom<Envelope> for SaplingSentOutput` (lines 301-320): check
the type tag, then extract subject and the four required predicates. -/
def SaplingSentOutput.tryFromEnvelope (envelope : Envelope) :
    Except DecodeErr SaplingSentOutput := do
  let _ ← envelope.checkType "SaplingSentOutput"
  let index ← envelope.extractSubjectNat
  let diversifier ← envelope.extractObjectForPredicate "diversifier" (decodeBlob 11)
  let receipient_public_key ←
    envelope.extractObjectForPredicate "receipient_public_key" (decodeBlob 32)
  let value ← envelope.extractObjectForPredicate "value" decodeAmount
  let rcm ← envelope.extractObjectForPredicate "rcm" (decodeBlob 32)
  return { index, diversifier, receipient_public_key, value, rcm }

/-! ## Address (src/address.rs) -/

/-- Modelled from the spec: `ProtocolAddress`, the protocol-specific
address payload, abstracted to its canonical string form (§4.1
"Canonical textual form", §3 "Address Data"). -/
structure ProtocolAddress where
  addrString : String
deriving DecidableEq

/-- A protocol address encodes as its canonical text. -/
def ProtocolAddress.toEnvelope (a : ProtocolAddress) : Envelope :=
  .leaf (.text a.addrString)

/-- Decode a protocol address back from its canonical text. -/
def ProtocolAddress.tryFromEnvelope (o : Envelope) :
    Except DecodeErr ProtocolAddress :=
  (decodeText o).map ProtocolAddress.mk

/-- Rust `Address` (src/address.rs lines 50-68): index, protocol address,
user-assigned name, optional purpose, attachments. -/
structure Address where
  index : Nat
  address : ProtocolAddress
  name : String
  purpose : Option String
  attachments : Attachments
deriving DecidableEq

/-- Rust `Address::new` (src/address.rs lines 110-118). -/
def Address.new (address : ProtocolAddress) : Address :=
  { index := 0, address, name := "", purpose := none, attachments := [] }

/-- Rust `From<Address> for Envelope` (src/address.rs lines 182-191):
subject is the index, type tag `Address`, assertions for `address` and
`name`, an optional assertion for `purpose`, then attachments. -/
def Address.toEnvelope (value : Address) : Envelope :=
  let envelope := (((Envelope.new (.nat value.index)).addType "Address")
    |>.addAssertion "address" value.address.toEnvelope)
    |>.addAssertion "name" (.leaf (.text value.name))
  let envelope := envelope.addOptionalAssertion "purpose"
    (value.purpose.map (fun s => .leaf (.text s)))
  value.attachments.addToEnvelope envelope

/-- Rust `TryFrom<Envelope> for Address` (src/address.rs lines 193-215):
check the type tag, then extract subject, required `address` and
`name`, optional `purpose`, and attachments. -/
def Address.tryFromEnvelope (envelope : Envelope) : Except DecodeErr Address := do
  let _ ← envelope.checkType "Address"
  let index ← envelope.extractSubjectNat
  let address ← envelope.extractObjectForPredicate "address" ProtocolAddress.tryFromEnvelope
  let name ← envelope.extractObjectForPredicate "name" decodeText
  let purpose ← envelope.extractOptionalObjectForPredicate "purpose" decodeText
  let attachments ← Attachments.tryFromEnvelope envelope
  return { index, address, name, purpose, attachments }

/-! ## SproutWitness (src/sprout_witness.rs) -/

/-- Modelled from the spec (§3 "Incremental Merkle tree"): the snapshot
of the right-most frontier — optional left and right hashes at the
insertion level plus a list of optional parent hashes. -/
structure IncrementalMerkleTree where
  left : Option U256
  right : Option U256
  parents : List (Option U256)
deriving DecidableEq

/-- Encode one optional parent slot: a byte-string leaf when present,
an empty-text leaf when absent (a modelling choice for option slots
inside an ordered list). -/
def optHashEnvelope : Option U256 → Envelope
  | none => .leaf (.text "")
  | some h => .leaf (.bytes h.val)

/-- Decode one optional parent slot. -/
def decodeOptHash (o : Envelope) : Except DecodeErr (Option U256) :=
  match o.subject with
  | .leaf (.text "") => .ok none
  | .leaf (.bytes bs) =>
    match Blob.from_slice 32 bs with
    | .ok b => .ok (some b)
    | .error _ => .error (.coercion "hash")
  | _ => .error (.coercion "hash")

/-- Modelled from the spec: the tree snapshot's envelope encoding —
optional `left`/`right` assertions and one `parent` assertion per
level. -/
def IncrementalMerkleTree.toEnvelope (t : IncrementalMerkleTree) : Envelope :=
  let e := (Envelope.new (.text "IncrementalMerkleTree")).addType "IncrementalMerkleTree"
  let e := e.addOptionalAssertion "left" (t.left.map (fun h => .leaf (.bytes h.val)))
  let e := e.addOptionalAssertion "right" (t.right.map (fun h => .leaf (.bytes h.val)))
  t.parents.foldl (fun acc p => acc.addAssertion "parent" (optHashEnvelope p)) e

/-- Modelled from the spec: decode a tree snapshot. -/
def IncrementalMerkleTree.tryFromEnvelope (e : Envelope) :
    Except DecodeErr IncrementalMerkleTree := do
  let _ ← e.checkType "IncrementalMerkleTree"
  let left ← e.extractOptionalObjectForPredicate "left" (decodeBlob 32)
  let right ← e.extractOptionalObjectForPredicate "right" (decodeBlob 32)
  let parents ← mapME decodeOptHash (e.objectsForPredicate "parent")
  return { left, right, parents }

/-- Modelled from the spec (§3 "Incremental witness"):
`IncrementalWitness<29, SHA256Compress>` — the tree snapshot at the
witnessed leaf, the hashes appended afterwards ("filled"), and an
optional cursor sub-tree.  `SproutWitness` (src/sprout_witness.rs line
51) is this type at depth 29 with SHA-256-compression hashes. -/
structure SproutWitness where
  tree : IncrementalMerkleTree
  filled : List U256
  cursor : Option IncrementalMerkleTree
deriving DecidableEq

/-- Modelled from the spec: `IncrementalWitness::with_fields(tree, filled, cursor)`. -/
def SproutWitness.with_fields (tree : IncrementalMerkleTree)
    (filled : List U256) (cursor : Option IncrementalMerkleTree) : SproutWitness :=
  { tree, filled, cursor }

/-- Decode a `filled` list (`Vec<u256>`): a byte-string-array leaf. -/
def decodeHashVec (o : Envelope) : Except DecodeErr (List U256) :=
  match o.subject with
  | .leaf (.bytesArray l) =>
    mapME (fun bs =>
      match Blob.from_slice 32 bs with
      | .ok b => .ok b
      | .error _ => .error (.coercion "u256")) l
  | _ => .error (.coercion "filled")

/-- Rust `From<SproutWitness> for Envelope` (src/sprout_witness.rs lines
63-70): subject is the tree's envelope, type tag `SproutWitness`, a
`filled` assertion, and an optional `cursor` assertion. -/
def SproutWitness.toEnvelope (value : SproutWitness) : Envelope :=
  (((Envelope.wrap value.tree.toEnvelope).addType "SproutWitness")
    |>.addAssertion "filled" (.leaf (.bytesArray (value.filled.map (·.val)))))
    |>.addOptionalAssertion "cursor" (value.cursor.map (·.toEnvelope))

/-- Rust `TryFrom<Envelope> for SproutWitness` (src/sprout_witness.rs lines
72-82): check the type tag, decode the subject as the tree, then
`filled` and the optional `cursor`. -/
def SproutWitness.tryFromEnvelope (envelope : Envelope) :
    Except DecodeErr SproutWitness := do
  let _ ← envelope.checkType "SproutWitness"
  let tree ← IncrementalMerkleTree.tryFromEnvelope envelope.unwrappedSubject
  let filled ← envelope.extractObjectForPredicate "filled" decodeHashVec
  let cursor ← envelope.extractOptionalObjectForPredicate "cursor"
    IncrementalMerkleTree.tryFromEnvelope
  return SproutWitness.with_fields tree filled cursor

/-! ## The top-level Zewif container (src/zewif_impl.rs) -/

/-- Modelled from the spec: the network a wallet belongs to
(`Network::Main` in the repository's examples). -/
inductive Network where
  | main
  | test
  | regtest
deriving DecidableEq

/-- A network's canonical text form. -/
def Network.toText : Network → String
  | .main => "main"
  | .test => "test"
  | .regtest => "regtest"

/-- Decode a network from its text form; fails closed on unknown text. -/
def Network.fromText (s : String) : Except DecodeErr Network :=
  match s with
  | "main" => .ok .main
  | "test" => .ok .test
  | "regtest" => .ok .regtest
  | _ => .error (.coercion "network")

/-- Modelled from the spec: `ZewifWallet` — a wallet with its
container-assigned positional index (§3 "each child entity carries its
own embedded sequence position") and its configuration
(`ZewifWallet::new(Network)`). -/
structure ZewifWallet where
  index : Nat
  network : Network
deriving DecidableEq

/-- Modelled from the spec: `Indexed::set_index` for a wallet — the owning container assigns the
sequence position at insertion. -/
def ZewifWallet.set_index (w : ZewifWallet) (i : Nat) : ZewifWallet :=
  { w with index := i }

/-- Modelled from the spec: a wallet's envelope carries its embedded
index as the subject, a type tag, and its configuration. -/
def ZewifWallet.toEnvelope (value : ZewifWallet) : Envelope :=
  ((Envelope.new (.nat value.index)).addType "ZewifWallet")
    |>.addAssertion "network" (.leaf (.text value.network.toText))

/-- Modelled from the spec: decode a wallet, recovering its embedded
index. -/
def ZewifWallet.tryFromEnvelope (e : Envelope) : Except DecodeErr ZewifWallet := do
  let _ ← e.checkType "ZewifWallet"
  let index ← e.extractSubjectNat
  let network ← e.extractObjectForPredicate "network"
    (fun o => do Network.fromText (← decodeText o))
  return { index, network }

/-- Modelled from the spec: `TxId`, a 32-byte transaction identifier. -/
abbrev TxId := Blob 32

/-- Modelled from the spec: `Transaction`, reduced to the identifier the
container keys it by (§3: the container holds "a deduplicated map of
transactions keyed by transaction identifier"). -/
structure Transaction where
  txid : TxId
deriving DecidableEq

/-- A transaction's envelope: subject is its id plus a type tag. -/
def Transaction.toEnvelope (value : Transaction) : Envelope :=
  (Envelope.new (.bytes value.txid.val)).addType "Transaction"

/-- Decode a transaction from its envelope. -/
def Transaction.tryFromEnvelope (e : Envelope) : Except DecodeErr Transaction := do
  let _ ← e.checkType "Transaction"
  let txid ← e.extractSubjectBlob 32
  return { txid }

/-- Modelled from the spec: `ARID`, the container's 32-byte globally
unique identifier (`ARID::new()` draws it at random, so theorems
quantify over it). -/
abbrev ARID := Blob 32

/-- Stable insertion of an element into a list sorted by index: an
element goes before the first strictly larger key, so equal keys keep
their original relative order. -/
def insertByIndex {α : Type} (idx : α → Nat) (x : α) : List α → List α
  | [] => [x]
  | y :: ys => if idx x ≤ idx y then x :: y :: ys else y :: insertByIndex idx x ys

/-- Stable insertion sort by index, matching a stable `sort_by_key`. -/
def sortByIndex {α : Type} (idx : α → Nat) : List α → List α
  | [] => []
  | x :: xs => insertByIndex idx x (sortByIndex idx xs)

/-- Modelled from the spec:
`envelope_indexed_objects_for_predicate` — fetch all objects for the
predicate, decode each, and sort by the embedded position (§3
"Multi-valued predicate with order"). -/
def envelopeIndexedObjectsForPredicate {α : Type} (e : Envelope) (pred : String)
    (dec : Envelope → Except DecodeErr α) (idx : α → Nat) :
    Except DecodeErr (List α) := do
  let objs ← mapME dec (e.objectsForPredicate pred)
  return sortByIndex idx objs

/-- Rust `Zewif` (src/zewif_impl.rs lines 57-65): id, ordered wallets,
transaction map, export height, attachments.  The source also declares
an `export_height_block_hash: BlockHash` field, but it is never
initialized by `Zewif::new`, never encoded and never decoded, so it
does not exist in the working data model and is omitted here.  The
`HashMap<TxId, Transaction>` is modelled as an association list. -/
structure Zewif where
  id : ARID
  wallets : List ZewifWallet
  transactions : List (TxId × Transaction)
  export_height : Nat
  attachments : Attachments
deriving DecidableEq

/-- Rust `Zewif::new(export_height)` (src/zewif_impl.rs lines 70-78): fresh
random id, no wallets, no transactions, empty attachments.  The random
`ARID::new()` is a parameter here. -/
def Zewif.new (id : ARID) (export_height : Nat) : Zewif :=
  { id, wallets := [], transactions := [], export_height, attachments := [] }

/-- Rust `Zewif::wallets_len` (src/zewif_impl.rs lines 88-90). -/
def Zewif.wallets_len (z : Zewif) : Nat := z.wallets.length

/-- Rust `Zewif::add_wallet` (src/zewif_impl.rs lines 92-95): assign the
wallet's index from the current length, then push. -/
def Zewif.add_wallet (z : Zewif) (wallet : ZewifWallet) : Zewif :=
  { z with wallets := z.wallets ++ [wallet.set_index z.wallets_len] }

/-- Rust `From<Zewif> for Envelope` (src/zewif_impl.rs lines 118-128):
subject is the id, type tag `Zewif`, one `wallet` assertion per wallet
in order, one `transaction` assertion per map entry, an
`export_height` assertion, then attachments. -/
def Zewif.toEnvelope (value : Zewif) : Envelope :=
  let e := (Envelope.new (.bytes value.id.val)).addType "Zewif"
  let e := value.wallets.foldl (fun acc w => acc.addAssertion "wallet" w.toEnvelope) e
  let e := value.transactions.foldl
    (fun acc t => acc.addAssertion "transaction" t.2.toEnvelope) e
  let e := e.addAssertion "export_height" (.leaf (.nat value.export_height))
  value.attachments.addToEnvelope e

/-- Rust `TryFrom<Envelope> for Zewif` (src/zewif_impl.rs lines 130-155):
check the type tag, extract the id, recover wallets by embedded index,
rebuild the transaction map keyed by txid, then export height and
attachments. -/
def Zewif.tryFromEnvelope (envelope : Envelope) : Except DecodeErr Zewif := do
  let _ ← envelope.checkType "Zewif"
  let id ← envelope.extractSubjectBlob 32
  let wallets ← envelopeIndexedObjectsForPredicate envelope "wallet"
    ZewifWallet.tryFromEnvelope ZewifWallet.index
  let transactions ←
    (mapME Transaction.tryFromEnvelope (envelope.objectsForPredicate "transaction")).map
      (List.map (fun tx => (tx.txid, tx)))
  let export_height ← envelope.extractObjectForPredicate "export_height" decodeNat
  let attachments ← Attachments.tryFromEnvelope envelope
  return { id, wallets, transactions, export_height, attachments }

/-! ## Streaming binary decoder (spec §4.2) and ReceiverType
(src/receiver_type.rs) -/

/-- Binary-decoder failures (spec §7): running off the end of the
buffer, or an invalid discriminant for a closed enumeration. -/
inductive ParseError where
  | endOfBuffer
  | invalidReceiverType (value : Nat)
deriving DecidableEq

/-- Read `n` bytes little-endian as an unsigned integer, returning the
remaining input. -/
def readBytesLE : Nat → List Byte → Except ParseError (Nat × List Byte)
  | 0, rest => .ok (0, rest)
  | _ + 1, [] => .error .endOfBuffer
  | n + 1, b :: rest => (readBytesLE n rest).map (fun r => (b.val + 256 * r.1, r.2))

/-- Modelled from the spec (§4.2, §6): the compact-size variable-length
unsigned-integer decoding — a leading marker byte selects the total
width: below 253 the marker is the value (1 byte); 253, 254 and 255
select a further 2, 4 or 8 little-endian bytes (3/5/9 bytes total).
Per §4.2 the legacy format's tolerance is kept: non-minimal encodings
are not rejected. -/
def parseCompactSize : List Byte → Except ParseError (Nat × List Byte)
  | [] => .error .endOfBuffer
  | m :: rest =>
    if m.val < 253 then .ok (m.val, rest)
    else if m.val = 253 then readBytesLE 2 rest
    else if m.val = 254 then readBytesLE 4 rest
    else readBytesLE 8 rest

/-- Rust `ReceiverType` (src/receiver_type.rs lines 41-52): the closed
enumeration of receiver kinds with discriminants 0x00-0x03. -/
inductive ReceiverType where
  | P2PKH
  | P2SH
  | Sapling
  | Orchard
deriving DecidableEq

/-- Rust `impl Parse for ReceiverType` (src/receiver_type.rs lines 55-66):
decode a compact size, then map 0x00-0x03 to the four receiver kinds
and reject every other value. -/
def ReceiverType.parse (input : List Byte) :
    Except ParseError (ReceiverType × List Byte) := do
  let (byte, rest) ← parseCompactSize input
  match byte with
  | 0x00 => .ok (.P2PKH, rest)
  | 0x01 => .ok (.P2SH, rest)
  | 0x02 => .ok (.Sapling, rest)
  | 0x03 => .ok (.Orchard, rest)
  | v => .error (.invalidReceiverType v)

/-! ## Supporting lemmas -/

theorem exceptBind_ok {ε α β : Type} (x : α) (f : α → Except ε β) :
    (Except.ok x >>= f) = f x := rfl

theorem exceptBind_error {ε α β : Type} (er : ε) (f : α → Except ε β) :
    (Except.error er >>= f : Except ε β) = Except.error er := rfl

theorem Blob.from_slice_val {N : Nat} (b : Blob N) :
    Blob.from_slice N b.val = .ok b := by
  simp [Blob.from_slice, b.property]

theorem hexCharVal_hexDigitChar : ∀ n : Fin 16,
    hexCharVal (hexDigitChar n) = some n := by decide

theorem byteOfDigits_hi_lo (b : Byte) :
    byteOfDigits (hiDigit b) (loDigit b) = b := by
  apply Fin.ext
  simp only [byteOfDigits, hiDigit, loDigit]
  omega

theorem hexDecodeChars_hexEncodeBytes (bs : List Byte) :
    hexDecodeChars (hexEncodeBytes bs) = .ok bs := by
  induction bs with
  | nil => rfl
  | cons b rest ih =>
    simp [hexEncodeBytes, hexDecodeChars, hexCharVal_hexDigitChar _, ih,
      byteOfDigits_hi_lo]

theorem Envelope.assertions_foldl {β : Type} (q : String) (g : β → Envelope)
    (l : List β) (e : Envelope) :
    (l.foldl (fun acc x => Envelope.assert acc q (g x)) e).assertions
      = e.assertions ++ l.map (fun x => (q, g x)) := by
  induction l generalizing e with
  | nil => simp
  | cons x xs ih => simp [List.foldl_cons, ih, Envelope.assertions]

theorem Envelope.subject_foldl {β : Type} (q : String) (g : β → Envelope)
    (l : List β) (e : Envelope) :
    (l.foldl (fun acc x => Envelope.assert acc q (g x)) e).subject = e.subject := by
  induction l generalizing e with
  | nil => rfl
  | cons x xs ih => simp [List.foldl_cons, ih, Envelope.subject]

theorem filterMap_pred_map_const {β : Type} (q pred : String) (g : β → Envelope)
    (l : List β) :
    (l.map (fun x => (q, g x))).filterMap
        (fun a => if a.1 = pred then some a.2 else none)
      = if q = pred then l.map g else [] := by
  induction l with
  | nil => simp
  | cons x xs ih => by_cases h : q = pred <;> simp [h] at ih ⊢ <;> simp [ih]

theorem mapME_decodeCBORLeaf (l : List CBORValue) :
    mapME decodeCBORLeaf (l.map Envelope.leaf) = .ok l := by
  induction l with
  | nil => rfl
  | cons x xs ih => simp [mapME, ih, decodeCBORLeaf, Envelope.subject]; rfl

theorem address_roundtrip (v : Address) :
    Address.tryFromEnvelope v.toEnvelope = .ok v := by
  obtain ⟨i, pa, nm, pu, atts⟩ := v
  cases pu <;>
    simp only [Address.toEnvelope, Address.tryFromEnvelope, Attachments.addToEnvelope,
      Attachments.tryFromEnvelope, Envelope.new, Envelope.addAssertion,
      Envelope.addOptionalAssertion, Envelope.addType, Envelope.checkType,
      Envelope.hasType, Envelope.assertions, Envelope.extractSubjectNat,
      Envelope.subject, Envelope.extractObjectForPredicate,
      Envelope.extractOptionalObjectForPredicate, Envelope.objectsForPredicate,
      Envelope.assertions_foldl, Envelope.subject_foldl, Option.map_none, Option.map_some,
      filterMap_pred_map_const, mapME_decodeCBORLeaf,
      decodeText, ProtocolAddress.tryFromEnvelope,
      List.filterMap_append, List.any_append, List.map_map] <;>
    simp [ProtocolAddress.toEnvelope, Envelope.subject, mapME_decodeCBORLeaf, decodeText] <;>
    rfl

theorem wallet_roundtrip (w : ZewifWallet) :
    ZewifWallet.tryFromEnvelope w.toEnvelope = .ok w := by
  obtain ⟨i, n⟩ := w
  cases n <;> rfl

/-! ## The claims -/

/-- Claim C1: a container built by `Zewif::new` at export height
2,000,000 with two wallets added in order assigns them indices 0 and 1,
and decoding the encoded container returns a container equal to the
original, wallets in insertion order.  The container's random id and the
two wallets are arbitrary. -/
theorem zewif_two_wallet_roundtrip (id : ARID) (w1 w2 : ZewifWallet) :
    (((Zewif.new id 2000000).add_wallet w1).add_wallet w2).wallets
      = [w1.set_index 0, w2.set_index 1]
    ∧ Zewif.tryFromEnvelope (((Zewif.new id 2000000).add_wallet w1).add_wallet w2).toEnvelope
      = .ok (((Zewif.new id 2000000).add_wallet w1).add_wallet w2) := by
  constructor
  · rfl
  · simp [Zewif.new, Zewif.add_wallet, Zewif.wallets_len, Zewif.toEnvelope,
      Zewif.tryFromEnvelope, Attachments.addToEnvelope, Attachments.tryFromEnvelope,
      Envelope.new, Envelope.addAssertion, Envelope.addType, Envelope.checkType,
      Envelope.hasType, Envelope.assertions, Envelope.extractSubjectBlob,
      Envelope.subject, Envelope.extractObjectForPredicate, Envelope.objectsForPredicate,
      envelopeIndexedObjectsForPredicate, mapME, wallet_roundtrip, sortByIndex,
      insertByIndex, ZewifWallet.set_index, decodeNat, Blob.from_slice_val,
      exceptBind_ok, exceptBind_error]
    rfl

/-- Witness for C1 at a concrete id and two concrete wallets. -/
theorem zewif_two_wallet_roundtrip_witness :
    Zewif.tryFromEnvelope
        (((Zewif.new ⟨List.replicate 32 0, rfl⟩ 2000000).add_wallet
            ⟨7, .main⟩).add_wallet ⟨9, .test⟩).toEnvelope
      = .ok (((Zewif.new ⟨List.replicate 32 0, rfl⟩ 2000000).add_wallet
            ⟨7, .main⟩).add_wallet ⟨9, .test⟩) :=
  (zewif_two_wallet_roundtrip ⟨List.replicate 32 0, rfl⟩ ⟨7, .main⟩ ⟨9, .test⟩).2

/-- Claim C2: every `SaplingSentOutput` decodes back from its encoding
unchanged; in particular the Scenario C value (diversifier 11 zero
bytes, value 5,000,000 zatoshis, rcm 32 zero bytes) and the value-0
edge case, which the witness instantiates. -/
theorem sapling_sent_output_roundtrip (v : SaplingSentOutput) :
    SaplingSentOutput.tryFromEnvelope v.toEnvelope = .ok v := by
  simp [SaplingSentOutput.toEnvelope, SaplingSentOutput.tryFromEnvelope,
    Envelope.new, Envelope.addAssertion, Envelope.addType, Envelope.checkType,
    Envelope.hasType, Envelope.assertions, Envelope.extractSubjectNat, Envelope.subject,
    Envelope.extractObjectForPredicate, Envelope.objectsForPredicate,
    decodeBlob, decodeAmount, decodeInt, Blob.from_slice_val]
  rfl

/-- Witness for C2: the Scenario C sent output (diversifier 11 zero
bytes, value 5,000,000, rcm 32 zero bytes) and the value-0 case. -/
theorem sapling_sent_output_roundtrip_witness :
    SaplingSentOutput.tryFromEnvelope
        (SaplingSentOutput.toEnvelope { SaplingSentOutput.new with value := ⟨5000000⟩ })
      = .ok { SaplingSentOutput.new with value := ⟨5000000⟩ }
    ∧ SaplingSentOutput.tryFromEnvelope SaplingSentOutput.new.toEnvelope
      = .ok SaplingSentOutput.new :=
  ⟨sapling_sent_output_roundtrip _, sapling_sent_output_roundtrip _⟩

/-- Counterexample to claim C3 as stated: `from_slice` into `Blob<4>`
fails on inputs of length 3 and of length 5 with the *same* error value
(std's `TryFromSliceError` has no fields), so the returned error cannot
report the actual length L, let alone the expected length N. -/
theorem from_slice_error_reports_no_lengths :
    Blob.from_slice 4 [1, 2, 3] = Blob.from_slice 4 [1, 2, 3, 4, 5]
    ∧ Blob.from_slice 4 [1, 2, 3] = .error ⟨⟩ := by decide

/-- Claim C3 as amended: construction via `from_slice`/`from_vec` from a
source of length L ≠ N always fails, but the error is std's opaque
`TryFromSliceError`, which carries no length information. -/
theorem from_slice_length_mismatch_fails (N : Nat) (data : List Byte)
    (h : data.length ≠ N) :
    Blob.from_slice N data = .error ⟨⟩ ∧ Blob.from_vec N data = .error ⟨⟩ := by
  unfold Blob.from_vec Blob.from_slice
  simp [h]

/-- Witness for C3 (amended) at N = 4 and a length-3 input. -/
theorem from_slice_length_mismatch_fails_witness :
    ([1, 2, 3] : List Byte).length ≠ 4
    ∧ (Blob.from_slice 4 [1, 2, 3] = .error ⟨⟩
        ∧ Blob.from_vec 4 [1, 2, 3] = .error ⟨⟩) :=
  ⟨by decide, from_slice_length_mismatch_fails 4 [1, 2, 3] (by decide)⟩

/-- Counterexample to claim C4 as stated: `Blob::<4>::from_hex("0102")`
does fail with a length-mismatch error, but the reported expected
length is 8 (the hex-digit count `N * 2` from src/blob.rs line 193),
not 4 as the claim says. -/
theorem from_hex_expected_not_n :
    Blob.from_hex 4 "0102" = .error (.SliceInvalid 8 4) ∧ (8 : Nat) ≠ 4 := by
  decide

/-- Claim C4 as amended: `Blob::<4>::from_hex("01020304")` yields bytes
[1,2,3,4]; `Blob::<4>::from_hex("0102")` fails with a length-mismatch
error reporting expected 8 (hex digits, `N * 2`) and actual 4 (the hex
string's length). -/
theorem from_hex_scenario_a_amended :
    Blob.from_hex 4 "01020304" = .ok ⟨[1, 2, 3, 4], rfl⟩
    ∧ Blob.from_hex 4 "0102" = .error (.SliceInvalid 8 4) := by decide

/-- Claim C5: for every N and every `Blob<N>` value, `from_hex` applied
to the canonical textual form produced by `Display` (lowercase,
unprefixed hex) returns the original value. -/
theorem blob_hex_display_roundtrip (N : Nat) (v : Blob N) :
    Blob.from_hex N v.display = .ok v := by
  simp only [Blob.from_hex, Blob.display]
  rw [hexDecodeChars_hexEncodeBytes]
  simp [Blob.from_vec, Blob.from_slice_val]

/-- Witness for C5 at the 4-byte value 01020304. -/
theorem blob_hex_display_roundtrip_witness :
    Blob.from_hex 4 (Blob.display ⟨[1, 2, 3, 4], rfl⟩) = .ok ⟨[1, 2, 3, 4], rfl⟩ :=
  blob_hex_display_roundtrip 4 ⟨[1, 2, 3, 4], rfl⟩

/-- Claim C6: encoding an `Address` whose purpose is `None` produces an
envelope with zero `purpose` assertions; decoding it returns the address
unchanged (purpose `None`, no default, no error); and any successful
decode of an envelope with zero `purpose` assertions has purpose
`None`. -/
theorem address_purpose_omission (a : Address) (h : a.purpose = none) :
    a.toEnvelope.objectsForPredicate "purpose" = []
    ∧ Address.tryFromEnvelope a.toEnvelope = .ok a
    ∧ ∀ e : Envelope, e.objectsForPredicate "purpose" = [] →
        ∀ a' : Address, Address.tryFromEnvelope e = .ok a' → a'.purpose = none := by
  refine ⟨?_, address_roundtrip a, ?_⟩
  · obtain ⟨i, pa, nm, pu, atts⟩ := a
    cases h
    simp [Address.toEnvelope, Attachments.addToEnvelope, Envelope.new,
      Envelope.addAssertion, Envelope.addOptionalAssertion, Envelope.addType,
      Envelope.objectsForPredicate, Envelope.assertions, Envelope.assertions_foldl,
      List.filterMap_append, filterMap_pred_map_const]
  · intro e h0 a' hdec
    simp only [Address.tryFromEnvelope, Envelope.extractOptionalObjectForPredicate,
      h0, bind, Except.bind] at hdec
    repeat' split at hdec
    all_goals (try simp_all)
    all_goals (cases hdec; rfl)

/-- Witness for C6: a freshly constructed address (purpose `None`) has
zero `purpose` assertions in its encoding. -/
theorem address_purpose_omission_witness :
    (Address.new ⟨"t1example"⟩).purpose = none
    ∧ (Address.new ⟨"t1example"⟩).toEnvelope.objectsForPredicate "purpose" = [] :=
  ⟨rfl, (address_purpose_omission (Address.new ⟨"t1example"⟩) rfl).1⟩

/-- Claim C7: decoding an `Address`, `SaplingSentOutput` or
`SproutWitness` from an envelope that does not carry the entity's
declared type tag fails with a type-mismatch error — for *every* such
envelope, whatever its subject and assertions, so the check necessarily
happens before any subject or assertion is extracted. -/
theorem decode_checks_type_tag_first (e : Envelope) :
    (e.hasType "Address" = false →
      Address.tryFromEnvelope e = .error (.typeMismatch "Address"))
    ∧ (e.hasType "SaplingSentOutput" = false →
      SaplingSentOutput.tryFromEnvelope e = .error (.typeMismatch "SaplingSentOutput"))
    ∧ (e.hasType "SproutWitness" = false →
      SproutWitness.tryFromEnvelope e = .error (.typeMismatch "SproutWitness")) := by
  refine ⟨fun h => ?_, fun h => ?_, fun h => ?_⟩
  · simp only [Address.tryFromEnvelope, Envelope.checkType, h, Bool.false_eq_true,
      if_false, exceptBind_error]
  · simp only [SaplingSentOutput.tryFromEnvelope, Envelope.checkType, h,
      Bool.false_eq_true, if_false, exceptBind_error]
  · simp only [SproutWitness.tryFromEnvelope, Envelope.checkType, h,
      Bool.false_eq_true, if_false, exceptBind_error]

/-- Witness for C7 at a bare numeric-leaf envelope, which carries no
type tag at all. -/
theorem decode_checks_type_tag_first_witness :
    (Envelope.leaf (.nat 0)).hasType "Address" = false
    ∧ Address.tryFromEnvelope (.leaf (.nat 0)) = .error (.typeMismatch "Address")
    ∧ SaplingSentOutput.tryFromEnvelope (.leaf (.nat 0))
        = .error (.typeMismatch "SaplingSentOutput")
    ∧ SproutWitness.tryFromEnvelope (.leaf (.nat 0))
        = .error (.typeMismatch "SproutWitness") :=
  ⟨rfl, (decode_checks_type_tag_first (.leaf (.nat 0))).1 rfl,
    (decode_checks_type_tag_first (.leaf (.nat 0))).2.1 rfl,
    (decode_checks_type_tag_first (.leaf (.nat 0))).2.2 rfl⟩

/-- Claim C8: whenever the compact-size prefix of the stream decodes to
a value n, parsing a `ReceiverType` succeeds exactly for n in 0..3,
yielding P2PKH, P2SH, Sapling and Orchard respectively, and fails with
an invalid-discriminant error for every other n. -/
theorem receiver_type_parse_discriminants (input : List Byte) (n : Nat)
    (rest : List Byte) (h : parseCompactSize input = .ok (n, rest)) :
    ReceiverType.parse input =
      (if n = 0 then .ok (.P2PKH, rest)
      else if n = 1 then .ok (.P2SH, rest)
      else if n = 2 then .ok (.Sapling, rest)
      else if n = 3 then .ok (.Orchard, rest)
      else .error (.invalidReceiverType n)) := by
  unfold ReceiverType.parse
  rw [h]
  rcases n with _ | (_ | (_ | (_ | m))) <;> rfl

/-- Witness for C8 at the one-byte stream 0x02, which parses as the
Sapling receiver type. -/
theorem receiver_type_parse_discriminants_witness :
    parseCompactSize [(2 : Byte)] = .ok (2, [])
    ∧ ReceiverType.parse [(2 : Byte)] = .ok (.Sapling, []) := by
  refine ⟨rfl, ?_⟩
  have h := receiver_type_parse_discriminants [(2 : Byte)] 2 [] rfl
  simpa using h

/-- Claim C9: the infallible conversions `From<Vec<u8>>` and
`From<&[u8]>` for `Blob<N>` panic (modelled as `none`) exactly when the
input length differs from N, so they are total only under the
precondition that the input has exactly N bytes. -/
theorem blob_infallible_conversion_panics (N : Nat) (data : List Byte) :
    (Blob.fromVecInfallible N data = none ↔ data.length ≠ N)
    ∧ (Blob.fromSliceInfallible N data = none ↔ data.length ≠ N) := by
  unfold Blob.fromVecInfallible Blob.fromSliceInfallible Blob.from_vec Blob.from_slice
  by_cases h : data.length = N <;> simp [h, Except.toOption]

/-- Witness for C9 at N = 4 and a length-3 input, where both
conversions panic. -/
theorem blob_infallible_conversion_panics_witness :
    Blob.fromVecInfallible 4 [1, 2, 3] = none
    ∧ Blob.fromSliceInfallible 4 [1, 2, 3] = none :=
  ⟨(blob_infallible_conversion_panics 4 [1, 2, 3]).1.mpr (by decide),
    (blob_infallible_conversion_panics 4 [1, 2, 3]).2.mpr (by decide)⟩

/-- Claim C10: `Position::from(usize)` truncates to 32 bits — the
resulting value is the input modulo 2^32, so inputs of 2^32 or more
wrap silently (the conversion is total and never fails). -/
theorem position_from_usize_truncates :
    (∀ v : Nat, (Position.fromUsize v).val = v % 2 ^ 32)
    ∧ Position.fromUsize (2 ^ 32 + 7) = Position.fromUsize 7 :=
  ⟨fun _ => rfl, by decide⟩

/-- Witness for C10 at an input past 2^32, which wraps to 7. -/
theorem position_from_usize_truncates_witness :
    (Position.fromUsize (2 ^ 32 + 7)).val = (2 ^ 32 + 7) % 2 ^ 32 :=
  position_from_usize_truncates.1 (2 ^ 32 + 7)

end Zewif
